import Mathlib

/-!
Verification of the FOOOF repository (src/fooof/funcs.py, src/fooof/group.py)
against its natural-language specification.

Modelling conventions:
  * numpy 1-d arrays over a frequency axis become `List ℝ`; 2-d arrays become
    `List (List ℝ)` (a list of rows).
  * numpy elementwise operations are embedded as the `np_*` helpers below.
    numpy's `log10` never raises an exception: on a non-positive argument it
    returns a non-finite junk value (NaN / -inf) and at most emits a runtime
    warning.  This is mirrored by Mathlib's total `Real.logb`, which also
    returns junk (0, or the log of the absolute value) on non-positive input.
  * Python code that can raise is embedded with `Except PyErr`; code with no
    raising operation is total.
-/

noncomputable section

namespace Fooof

/-- Python exception kinds that the embedded fragments can raise. -/
inductive PyErr where
  | IndexError
  | ValueError
  | DomainError
  deriving DecidableEq

/-! ### numpy primitives used by funcs.py -/

/-- numpy log10 on a scalar: total, junk on non-positive input (numpy returns
NaN / -inf with a warning; it never raises). -/
def np_log10 (v : ℝ) : ℝ := Real.logb 10 v

/-- numpy elementwise power with a real exponent: x ** c. -/
def np_rpow (x : List ℝ) (c : ℝ) : List ℝ := x.map (fun xi => xi ^ c)

/-- numpy broadcast of scalar + array: b + v. -/
def np_addScalar (b : ℝ) (v : List ℝ) : List ℝ := v.map (fun vi => b + vi)

/-- numpy broadcast of scalar - array: s - v. -/
def np_subFromScalar (s : ℝ) (v : List ℝ) : List ℝ := v.map (fun vi => s - vi)

/-- numpy zeros_like: an all-zero array of the same length. -/
def np_zeros_like (x : List ℝ) : List ℝ := x.map (fun _ => (0 : ℝ))

/-- numpy elementwise addition of two arrays of equal length. -/
def np_addVec (y z : List ℝ) : List ℝ := List.zipWith (· + ·) y z

/-! ### funcs.py: gaussian_function -/

/-- One Gaussian bump term, `amp * np.exp(-(x-ctr)**2 / (2*wid**2))`,
from the loop body of `gaussian_function`. -/
def gaussTerm (ctr amp wid xi : ℝ) : ℝ :=
  amp * Real.exp (-((xi - ctr) ^ 2) / (2 * wid ^ 2))

/-- The loop of `gaussian_function`: `for i in range(0, len(params), 3)`
consumes `params` three at a time, accumulating `y = y + amp * np.exp(...)`.
If the remaining parameter list has length 1 or 2, the source indexes
`params[i+1]` or `params[i+2]` out of bounds and raises IndexError,
embedded as `none`. -/
def gaussLoop (x : List ℝ) : List ℝ → List ℝ → Option (List ℝ)
  | y, [] => some y
  | y, ctr :: amp :: wid :: rest =>
      gaussLoop x (np_addVec y (x.map (gaussTerm ctr amp wid))) rest
  | _, _ :: _ => none

/-- Embedding of `gaussian_function(x, *params)` from src/fooof/funcs.py:
starts from `np.zeros_like(x)` and folds the Gaussian bump of each
consecutive parameter triple onto the accumulator. -/
def gaussian_function (x : List ℝ) (params : List ℝ) : Option (List ℝ) :=
  gaussLoop x (np_zeros_like x) params

/-- Flattening of a list of (center, amplitude, width) triples into the flat
`*params` list that `gaussian_function` receives. -/
def flattenTriples : List (ℝ × ℝ × ℝ) → List ℝ
  | [] => []
  | (c, a, w) :: ts => c :: a :: w :: flattenTriples ts

/-! ### funcs.py: loglorentzian_function -/

/-- Embedding of `loglorentzian_function(x, *params)` from src/fooof/funcs.py:
`y = np.log10(a) - np.log10(b + x**c)` with `a, b, c = params`.
(The initial `y = np.zeros_like(x)` of the source is dead: `y` is immediately
reassigned by the broadcast expression.) -/
def loglorentzian_function (x : List ℝ) (a b c : ℝ) : List ℝ :=
  np_subFromScalar (np_log10 a) ((np_addScalar b (np_rpow x c)).map np_log10)

/-- The knee-background formula as the claim words it: `offset − log10(knee +
x^slope)` with the offset entering untransformed.  Written from the claim, to
be compared against `loglorentzian_function`. -/
def loglorentzian_claim (x : List ℝ) (offset knee slope : ℝ) : List ℝ :=
  x.map (fun xi => offset - np_log10 (knee + xi ^ slope))

/-- Call-semantics wrapper for `loglorentzian_function`: the body contains no
raising operation (numpy log10 and power are total), so evaluation always
returns `.ok`.  A DomainError path simply does not exist in the source. -/
def loglorentzian_run (x : List ℝ) (a b c : ℝ) : Except PyErr (List ℝ) :=
  .ok (loglorentzian_function x a b c)

/-! ### group.py: data model

The per-spectrum result record and the single-spectrum fitter live in the
FOOOF base class, which is not among the source files; they are modelled from
the spec and from the attribute names group.py reads off them. -/

/-- Modelled from the spec: the Fit Result record produced by the missing
single-spectrum fitter (`FOOOF.get_results`).  Spec §3: background parameters,
ordered sequence of peak parameter rows (zero or more, each a
(center, amplitude, width) row), goodness-of-fit error, and r².  The field
names are the attribute names that `group.py` fetches with `getattr`. -/
structure FOOOFResult where
  background_params : List ℝ
  oscillations_params : List (List ℝ)
  error : ℝ
  r2 : ℝ

/-- The group-fitter state that the claims touch: `self.group_results`,
the ordered collection of per-spectrum Fit Results. -/
structure FOOOFGroupState where
  group_results : List FOOOFResult

/-! ### group.py: fit_group

The single-spectrum fitter `FOOOF.fit` is not among the source files.
Modelled from the spec: each per-spectrum fit is a self-contained,
deterministic, side-effect-free computation (spec §5, §8) that either
produces a Fit Result or raises a typed fit error (spec §4.2), so it is
abstracted as a function `P → Except E FOOOFResult` over an opaque-to-us
spectrum type `P` and error type `E`. -/

/-- The `for psd in psds` loop of `fit_group`: fit each spectrum, append the
result to the accumulated `group_results`; an exception from `fit` propagates,
ending the loop at once.  Besides the results and the propagated error the
embedding also returns the trace of spectra on which `fit` was invoked, in
order, so that "no subsequent spectrum is fit" is expressible. -/
def fitLoop {P E : Type} (fit : P → Except E FOOOFResult) :
    List P → List FOOOFResult → List P → List FOOOFResult × List P × Option E
  | [], acc, tried => (acc, tried, none)
  | p :: ps, acc, tried =>
      match fit p with
      | .ok r => fitLoop fit ps (acc ++ [r]) (tried ++ [p])
      | .error e => (acc, tried ++ [p], some e)

/-- Embedding of `FOOOFGroup.fit_group` from src/fooof/group.py: first
`_reset_group_results` (group_results = []), then the fitting loop over the
batch.  A raised error is returned alongside the state in which it leaves the
object (in Python the exception propagates and `self.group_results` keeps
whatever was appended before the failure).  The optional file sink and the
trailing `_reset_dat(False)` scratch-state cleanup touch no field of the
modelled state. -/
def fit_group {P E : Type} (fit : P → Except E FOOOFResult) (st : FOOOFGroupState)
    (psds : List P) : FOOOFGroupState × Option E :=
  let st0 : FOOOFGroupState := { st with group_results := [] }
  let res := fitLoop fit psds st0.group_results []
  ({ st0 with group_results := res.1 }, res.2.2)

/-- The spectra on which `fit_group` invokes the single-spectrum fitter,
in invocation order. -/
def fitAttempted {P E : Type} (fit : P → Except E FOOOFResult) (psds : List P) : List P :=
  (fitLoop fit psds [] []).2.1

/-! ### group.py: load_group_results

`FOOOF.load` is not among the source files.  Modelled from the spec: the sink
file is one structured record per line; reading the next record either parses
to a Fit Result or raises `JSONDecodeError` (incomplete/corrupt trailing
record, or end of file, where reading an empty line fails to parse).  The
file is therefore a `List (Option FOOOFResult)`: `some r` a record parsing to
`r`, `none` the first unparsable point. -/

/-- The `while True` loop of `load_group_results`: append each parsed record;
the first `JSONDecodeError` (corrupt record or end of file) is caught and
breaks the loop. -/
def loadLoop : List (Option FOOOFResult) → List FOOOFResult
  | [] => []
  | none :: _ => []
  | some r :: rest => r :: loadLoop rest

/-- Embedding of `FOOOFGroup.load_group_results` from src/fooof/group.py:
`_reset_group_results` first, then the reading loop; no exception escapes
(the function is total).  The trailing `_reset_dat(False)` touches no field
of the modelled state. -/
def load_group_results (st : FOOOFGroupState) (file : List (Option FOOOFResult)) :
    FOOOFGroupState :=
  { st with group_results := loadLoop file }

/-! ### group.py: get_all_data -/

/-- The data field names that `get_all_data` is called with (the `getattr`
name string). -/
inductive FieldName where
  | background_params
  | oscillations_params
  | error
  | r2
  deriving DecidableEq

/-- A value fetched off a Fit Result: a scalar (numpy float), a 1-d array, or
a 2-d array. -/
inductive NPVal where
  | scalar (v : ℝ)
  | arr1 (v : List ℝ)
  | arr2 (v : List (List ℝ))

/-- A value returned by `get_all_data`: a 1-d or 2-d numpy array. -/
inductive NPOut where
  | arr1 (v : List ℝ)
  | arr2 (v : List (List ℝ))

/-- `getattr(dat, name)` on a Fit Result: `error` and `r2` are scalars,
`background_params` a 1-d array, `oscillations_params` a 2-d array
(one row per peak). -/
def npGetattr (r : FOOOFResult) : FieldName → NPVal
  | .background_params => .arr1 r.background_params
  | .oscillations_params => .arr2 r.oscillations_params
  | .error => .scalar r.error
  | .r2 => .scalar r.r2

/-- Scalar content of a fetched value.  Only applied when the isinstance
branch has established that the field is scalar-valued; the array cases are
unreachable there because `getattr` with a fixed name yields the same shape
kind on every record. -/
def npScalarVal : NPVal → ℝ
  | .scalar v => v
  | .arr1 _ => 0
  | .arr2 _ => 0

/-- `arr.reshape(1, len(arr)) if arr.ndim == 1 else arr`: the rows a fetched
array value contributes to `np.concatenate(..., 0)`.  The scalar case is
unreachable under the isinstance guard. -/
def npRows : NPVal → List (List ℝ)
  | .scalar v => [[v]]
  | .arr1 v => [v]
  | .arr2 v => v

/-- Whether all rows have one common length — the condition for
`np.concatenate(..., 0)` to succeed rather than raise ValueError. -/
def uniformRows : List (List ℝ) → Bool
  | [] => true
  | r :: rest => rest.all (fun s => s.length == r.length)

/-- `np.concatenate([arr.reshape(1, len(arr)) if arr.ndim == 1 else arr
for arr in out], 0)`: stack the rows of every fetched value, in order;
mismatched row widths raise ValueError. -/
def npConcatRows (vs : List NPVal) : Except PyErr (List (List ℝ)) :=
  let rows := vs.flatMap npRows
  if uniformRows rows then .ok rows else .error .ValueError

/-- Column selection `out[:, i]`: on a 1-d array this raises IndexError (too
many indices); on a 2-d array it raises IndexError when `i` is out of bounds
for some row. -/
def npCol (i : Nat) : NPOut → Except PyErr NPOut
  | .arr1 _ => .error .IndexError
  | .arr2 rows =>
      match rows.mapM (fun r => r[i]?) with
      | some col => .ok (.arr1 col)
      | none => .error .IndexError

/-- Embedding of `FOOOFGroup.get_all_data(name, ind)` from src/fooof/group.py:
fetch the named field off every stored result; test `isinstance(out[0],
np.ndarray)` — on an empty group this indexes an empty array and raises
IndexError; for array-valued fields concatenate all rows into one 2-d array;
finally select a column when `ind` is given. -/
def get_all_data (st : FOOOFGroupState) (name : FieldName) (ind : Option Nat) :
    Except PyErr NPOut :=
  match st.group_results.map (fun dat => npGetattr dat name) with
  | [] => .error .IndexError
  | v0 :: vs =>
      let step : Except PyErr NPOut :=
        match v0 with
        | .scalar _ => .ok (.arr1 ((v0 :: vs).map npScalarVal))
        | _ =>
            match npConcatRows (v0 :: vs) with
            | .ok rows => .ok (.arr2 rows)
            | .error e => .error e
      match step, ind with
      | .error e, _ => .error e
      | .ok out, none => .ok out
      | .ok out, some i => npCol i out

/-! ### Concrete instances used by witnesses -/

/-- A concrete Fit Result with one peak row, used by witnesses. -/
def exR0 : FOOOFResult := ⟨[1, 2], [[10, 1, 1]], 0, 1⟩

/-- A concrete Fit Result standing for a stale, previously stored result. -/
def exR1 : FOOOFResult := ⟨[5], [[3, 3, 3]], 2, 0⟩

/-- A concrete single-spectrum fitter (spectra indexed by ℕ) that always
succeeds. -/
def exFitOk : ℕ → Except Unit FOOOFResult := fun _ => .ok exR0

/-- A concrete single-spectrum fitter that fails exactly on spectrum 7. -/
def exFitBad : ℕ → Except Unit FOOOFResult :=
  fun n => if n = 7 then .error () else .ok exR0

/-! ### Helper lemmas -/

theorem zipWith_add_map (f g : ℝ → ℝ) (x : List ℝ) :
    List.zipWith (· + ·) (x.map f) (x.map g) = x.map (fun v => f v + g v) := by
  induction x with
  | nil => rfl
  | cons a l ih => simp [ih]

theorem gaussLoop_flatten (x : List ℝ) (ts : List (ℝ × ℝ × ℝ)) (h : ℝ → ℝ) :
    gaussLoop x (x.map h) (flattenTriples ts) =
      some (x.map (fun xi => h xi + (ts.map (fun t => gaussTerm t.1 t.2.1 t.2.2 xi)).sum)) := by
  induction ts generalizing h with
  | nil => simp [flattenTriples, gaussLoop]
  | cons t ts ih =>
      obtain ⟨c, a, w⟩ := t
      simp only [flattenTriples, gaussLoop, np_addVec, zipWith_add_map]
      rw [ih (fun xi => h xi + gaussTerm c a w xi)]
      simp [add_assoc]

theorem fitLoop_ok {P E : Type} (fit : P → Except E FOOOFResult) (g : P → FOOOFResult)
    (psds : List P) (h : ∀ p ∈ psds, fit p = .ok (g p)) (acc : List FOOOFResult)
    (tried : List P) :
    fitLoop fit psds acc tried = (acc ++ psds.map g, tried ++ psds, none) := by
  induction psds generalizing acc tried with
  | nil => simp [fitLoop]
  | cons p ps ih =>
      have hp : fit p = .ok (g p) := h p (List.mem_cons_self p ps)
      simp only [fitLoop, hp]
      rw [ih (fun q hq => h q (List.mem_cons_of_mem p hq))]
      simp

theorem fitLoop_err {P E : Type} (fit : P → Except E FOOOFResult) (g : P → FOOOFResult)
    (pre : List P) (bad : P) (post : List P) (e : E)
    (hpre : ∀ p ∈ pre, fit p = .ok (g p)) (hbad : fit bad = .error e)
    (acc : List FOOOFResult) (tried : List P) :
    fitLoop fit (pre ++ bad :: post) acc tried =
      (acc ++ pre.map g, tried ++ pre ++ [bad], some e) := by
  induction pre generalizing acc tried with
  | nil => simp [fitLoop, hbad]
  | cons p ps ih =>
      have hp : fit p = .ok (g p) := hpre p (List.mem_cons_self p ps)
      simp only [List.cons_append, fitLoop, hp, List.append_eq]
      rw [ih (fun q hq => hpre q (List.mem_cons_of_mem p hq))]
      simp

theorem loadLoop_trunc (ts : List FOOOFResult) (rest : List (Option FOOOFResult)) :
    loadLoop (ts.map some ++ none :: rest) = ts := by
  induction ts with
  | nil => rfl
  | cons t ts ih => simp [loadLoop, ih]

theorem uniformRows_of_width (rows : List (List ℝ)) (w : Nat)
    (h : ∀ r ∈ rows, r.length = w) : uniformRows rows = true := by
  cases rows with
  | nil => rfl
  | cons r rest =>
      simp only [uniformRows, List.all_eq_true]
      intro s hs
      rw [beq_iff_eq, h s (List.mem_cons_of_mem r hs), h r (List.mem_cons_self r rest)]

/-! ### Claim C1 -/

/-- Claim C1, counterexample: the claim as stated — the knee-background model
returns `offset − log10(knee + x^slope)` with the offset entering
untransformed — is false at x = [1], (offset, knee, slope) = (10, 9, 1):
the source computes `log10(10) − log10(10) = 0` while the claimed formula
gives `10 − log10(10) = 9`. -/
theorem loglorentzian_claim_counterexample :
    loglorentzian_function [1] 10 9 1 ≠ loglorentzian_claim [1] 10 9 1 := by
  have h1 : ((1 : ℝ)) ^ (1 : ℝ) = 1 := Real.rpow_one 1
  have h10 : Real.logb 10 10 = 1 := Real.logb_self_eq_one (by norm_num)
  simp only [loglorentzian_function, loglorentzian_claim, np_subFromScalar, np_addScalar,
    np_rpow, np_log10, List.map_cons, List.map_nil, h1]
  norm_num [h10]

/-- Claim C1 (amended): for every frequency array x and parameter triple
(offset, knee, slope), `loglorentzian_function` returns, elementwise,
`log10(offset) − log10(knee + x^slope)` — the offset contributes through its
base-10 logarithm, not untransformed. -/
theorem loglorentzian_function_elementwise (x : List ℝ) (a b c : ℝ) :
    loglorentzian_function x a b c =
      x.map (fun xi => Real.logb 10 a - Real.logb 10 (b + xi ^ c)) := by
  simp [loglorentzian_function, np_subFromScalar, np_addScalar, np_rpow, np_log10,
    List.map_map, Function.comp]

/-! ### Claim C2 -/

/-- Claim C2, counterexample: at x = [-1] with parameters (1, 1, 1) the knee
argument is `1 + (-1)^1 = 0`, whose log10 the claim says must raise a domain
error; yet evaluation succeeds and returns a value (numpy log10 never raises,
it produces a junk value with a warning). -/
theorem loglorentzian_run_counterexample :
    (loglorentzian_run [(-1 : ℝ)] 1 1 1).isOk = true ∧ (1 : ℝ) + (-1 : ℝ) ^ (1 : ℝ) ≤ 0 := by
  refine ⟨rfl, ?_⟩
  rw [Real.rpow_one]
  norm_num

/-- Claim C2 (amended): the power-law model function contains no domain
check and no raising operation: even on inputs where a log argument is
non-positive (non-positive x, non-positive first parameter, or
knee + x^slope ≤ 0), evaluation returns an array of the same length as x
(with junk entries where numpy would produce NaN / -inf); positivity is a
documented precondition on callers, not an enforced error. -/
theorem loglorentzian_run_total (x : List ℝ) (a b c : ℝ)
    (_h : a ≤ 0 ∨ ∃ xi ∈ x, xi ≤ 0 ∨ b + xi ^ c ≤ 0) :
    ∃ y, loglorentzian_run x a b c = .ok y ∧ y.length = x.length := by
  refine ⟨loglorentzian_function x a b c, rfl, ?_⟩
  simp [loglorentzian_function, np_subFromScalar, np_addScalar, np_rpow]

/-- Witness for C2 at the concrete domain-violating input x = [-1],
parameters (1, 1, 1). -/
theorem loglorentzian_run_total_witness :
    ∃ y, loglorentzian_run [(-1 : ℝ)] 1 1 1 = .ok y ∧ y.length = 1 :=
  loglorentzian_run_total [(-1 : ℝ)] 1 1 1
    (Or.inr ⟨-1, by simp, Or.inl (by norm_num)⟩)

/-! ### Claim C3 -/

/-- Claim C3: for every frequency array x and parameter list made of k ≥ 0
consecutive (center, amplitude, width) triples, `gaussian_function` returns
the elementwise sum over the triples of `amp · exp(−(x−center)²/(2·width²))`;
with zero triples it returns an all-zero array of the same length as x. -/
theorem gaussian_function_sum (x : List ℝ) (ts : List (ℝ × ℝ × ℝ)) :
    gaussian_function x (flattenTriples ts) =
      some (x.map (fun xi => (ts.map (fun t => gaussTerm t.1 t.2.1 t.2.2 xi)).sum)) ∧
    gaussian_function x [] = some (x.map (fun _ => (0 : ℝ))) := by
  constructor
  · have h := gaussLoop_flatten x ts (fun _ => (0 : ℝ))
    simpa [gaussian_function, np_zeros_like] using h
  · rfl

/-! ### Claim C4 -/

/-- Claim C4: for every group fitter state (also one already holding results)
and every batch on which each per-spectrum fit succeeds, after `fit_group` the
stored group results are exactly this batch's Fit Results in input order —
prior results are discarded, never merged — and running `fit_group` twice on
the same input leaves the same stored state as running it once. -/
theorem fit_group_replaces_results {P E : Type} (fit : P → Except E FOOOFResult)
    (g : P → FOOOFResult) (st : FOOOFGroupState) (psds : List P)
    (h : ∀ p ∈ psds, fit p = .ok (g p)) :
    fit_group fit st psds = (⟨psds.map g⟩, none) ∧
    fit_group fit (fit_group fit st psds).1 psds = fit_group fit st psds := by
  have h1 : ∀ s : FOOOFGroupState, fit_group fit s psds = (⟨psds.map g⟩, none) := by
    intro s
    simp [fit_group, fitLoop_ok fit g psds h]
  exact ⟨h1 st, by rw [h1, h1]⟩

/-- Witness for C4: a two-spectrum batch over a state already holding a stale
result; both conjuncts evaluated at the concrete fitter `exFitOk`. -/
theorem fit_group_replaces_results_witness :
    fit_group exFitOk ⟨[exR1]⟩ [0, 1] = (⟨[0, 1].map (fun _ => exR0)⟩, none) ∧
    fit_group exFitOk (fit_group exFitOk ⟨[exR1]⟩ [0, 1]).1 [0, 1] =
      fit_group exFitOk ⟨[exR1]⟩ [0, 1] :=
  fit_group_replaces_results exFitOk (fun _ => exR0) ⟨[exR1]⟩ [0, 1] (fun _ _ => rfl)

/-! ### Claim C5 -/

/-- Claim C5: loading group results from a sink file whose trailing record is
incomplete or corrupt yields exactly the complete records parsed before the
first parse failure, in file order; `load_group_results` is a total function,
so no exception escapes the load call (the JSONDecodeError is caught and
breaks the loop). -/
theorem load_group_results_truncated (st : FOOOFGroupState) (ts : List FOOOFResult)
    (rest : List (Option FOOOFResult)) :
    load_group_results st (ts.map some ++ none :: rest) = ⟨ts⟩ := by
  simp [load_group_results, loadLoop_trunc]

/-! ### Claim C8 -/

/-- Claim C8: when some spectrum's single-spectrum fit raises, `fit_group`
propagates that error to its caller and invokes the fitter on no subsequent
spectrum of the batch: the invocation trace is exactly the successful prefix
followed by the failing spectrum. -/
theorem fit_group_halts_on_error {P E : Type} (fit : P → Except E FOOOFResult)
    (g : P → FOOOFResult) (st : FOOOFGroupState) (pre : List P) (bad : P)
    (post : List P) (e : E)
    (hpre : ∀ p ∈ pre, fit p = .ok (g p)) (hbad : fit bad = .error e) :
    (fit_group fit st (pre ++ bad :: post)).2 = some e ∧
    fitAttempted fit (pre ++ bad :: post) = pre ++ [bad] := by
  have hl := fitLoop_err fit g pre bad post e hpre hbad
  constructor
  · simp [fit_group, hl]
  · simp [fitAttempted, hl]

/-- Witness for C8: the concrete fitter `exFitBad` fails on spectrum 7 in the
batch [0, 1, 7, 2, 3]; the error propagates and only [0, 1, 7] are attempted. -/
theorem fit_group_halts_on_error_witness :
    (fit_group exFitBad ⟨[exR1]⟩ ([0, 1] ++ 7 :: [2, 3])).2 = some () ∧
    fitAttempted exFitBad ([0, 1] ++ 7 :: [2, 3]) = [0, 1] ++ [7] :=
  fit_group_halts_on_error exFitBad (fun _ => exR0) ⟨[exR1]⟩ [0, 1] 7 [2, 3] ()
    (fun p hp => by fin_cases hp <;> rfl) rfl

/-! ### Claim C10 -/

/-- Claim C10: when `fit_group` fails on the k-th spectrum (0-indexed), the
error propagates with the stored group results holding exactly the k Fit
Results of the spectra fit successfully before the failure — the partial list
is neither cleared nor rolled back. -/
theorem fit_group_keeps_partial_results {P E : Type} (fit : P → Except E FOOOFResult)
    (g : P → FOOOFResult) (st : FOOOFGroupState) (pre : List P) (bad : P)
    (post : List P) (e : E)
    (hpre : ∀ p ∈ pre, fit p = .ok (g p)) (hbad : fit bad = .error e) :
    fit_group fit st (pre ++ bad :: post) = (⟨pre.map g⟩, some e) ∧
    (fit_group fit st (pre ++ bad :: post)).1.group_results.length = pre.length := by
  have hl := fitLoop_err fit g pre bad post e hpre hbad
  constructor
  · simp [fit_group, hl]
  · simp [fit_group, hl]

/-- Witness for C10: `exFitBad` fails on spectrum 7 at position k = 2 of the
batch [0, 1, 7, 2, 3]; exactly the first two results remain stored. -/
theorem fit_group_keeps_partial_results_witness :
    fit_group exFitBad ⟨[exR1]⟩ ([0, 1] ++ 7 :: [2, 3]) =
      (⟨[0, 1].map (fun _ => exR0)⟩, some ()) ∧
    (fit_group exFitBad ⟨[exR1]⟩ ([0, 1] ++ 7 :: [2, 3])).1.group_results.length =
      [0, 1].length :=
  fit_group_keeps_partial_results exFitBad (fun _ => exR0) ⟨[exR1]⟩ [0, 1] 7 [2, 3] ()
    (fun p hp => by fin_cases hp <;> rfl) rfl

/-! ### Claim C6 -/

/-- Claim C6, counterexample: a batch of N = 0 spectra is fit successfully
(no error), yet `get_all_data` on "error" raises IndexError instead of
returning a length-0 sequence — the claim fails at N = 0. -/
theorem get_all_data_empty_batch_counterexample :
    (fit_group exFitOk ⟨[exR1]⟩ ([] : List ℕ)).2 = none ∧
    get_all_data (fit_group exFitOk ⟨[exR1]⟩ ([] : List ℕ)).1 .error none =
      .error .IndexError :=
  ⟨rfl, rfl⟩

/-- Claim C6 (amended): for every nonempty group of N ≥ 1 spectra on which
every per-spectrum fit succeeds, `get_all_data` on "error" (likewise "r2")
after `fit_group` returns the length-N sequence whose i-th element is the
error (r2) field of the i-th spectrum's Fit Result, in input order; on an
empty batch it instead raises IndexError. -/
theorem get_all_data_scalar_fields {P E : Type} (fit : P → Except E FOOOFResult)
    (g : P → FOOOFResult) (st : FOOOFGroupState) (psds : List P)
    (hne : psds ≠ []) (hok : ∀ p ∈ psds, fit p = .ok (g p)) :
    get_all_data (fit_group fit st psds).1 .error none =
      .ok (.arr1 (psds.map (fun p => (g p).error))) ∧
    get_all_data (fit_group fit st psds).1 .r2 none =
      .ok (.arr1 (psds.map (fun p => (g p).r2))) := by
  have hres : (fit_group fit st psds).1 = ⟨psds.map g⟩ := by
    simp [fit_group, fitLoop_ok fit g psds hok]
  rw [hres]
  cases psds with
  | nil => exact absurd rfl hne
  | cons p ps =>
      constructor <;>
        simp [get_all_data, npGetattr, npScalarVal, List.map_map, Function.comp]

/-- Witness for C6: the two-spectrum batch [0, 1] under `exFitOk`. -/
theorem get_all_data_scalar_fields_witness :
    get_all_data (fit_group exFitOk ⟨[exR1]⟩ [0, 1]).1 .error none =
      .ok (.arr1 ([0, 1].map (fun _ => exR0.error))) ∧
    get_all_data (fit_group exFitOk ⟨[exR1]⟩ [0, 1]).1 .r2 none =
      .ok (.arr1 ([0, 1].map (fun _ => exR0.r2))) :=
  get_all_data_scalar_fields exFitOk (fun _ => exR0) ⟨[exR1]⟩ [0, 1]
    (by simp) (fun _ _ => rfl)

/-! ### Claim C7 -/

theorem flatMap_npRows_arr2 (rs : List FOOOFResult) :
    (rs.map (fun r => NPVal.arr2 r.oscillations_params)).flatMap npRows =
      rs.flatMap (fun r => r.oscillations_params) := by
  induction rs with
  | nil => rfl
  | cons r rest ih => simp [npRows, ih]

/-- Claim C7: on a nonempty group of stored results whose peak rows all have
width 3 (the (center, amplitude, width) data-model shape), `get_all_data` on
the peak-parameters field returns one 2-d structure that concatenates each
spectrum's variable-length peak list in input order, one row per peak, with
no extra column tagging rows by originating spectrum. -/
theorem get_all_data_oscillations (rs : List FOOOFResult) (hne : rs ≠ [])
    (hw : ∀ r ∈ rs, ∀ row ∈ r.oscillations_params, row.length = 3) :
    get_all_data ⟨rs⟩ .oscillations_params none =
      .ok (.arr2 (rs.flatMap (fun r => r.oscillations_params))) := by
  have hrows : ∀ row ∈ rs.flatMap (fun r => r.oscillations_params), row.length = 3 := by
    intro row hrow
    rw [List.mem_flatMap] at hrow
    obtain ⟨r, hr, hrw⟩ := hrow
    exact hw r hr row hrw
  have huni := uniformRows_of_width _ 3 hrows
  have hflat := flatMap_npRows_arr2 rs
  cases rs with
  | nil => exact absurd rfl hne
  | cons r0 rest =>
      rw [List.map_cons] at hflat
      simp only [List.flatMap_cons] at huni
      simp [get_all_data, npGetattr, npConcatRows, hflat, huni]

/-- Two concrete Fit Results with one and two peak rows, for the C7 witness. -/
def exRa : FOOOFResult := ⟨[0, 1], [[1, 2, 3]], 0, 1⟩

/-- Second concrete Fit Result for the C7 witness. -/
def exRb : FOOOFResult := ⟨[0, 1], [[4, 5, 6], [7, 8, 9]], 0, 1⟩

/-- Witness for C7: a two-result group whose peak lists have one and two rows;
the returned 2-d structure is their three rows in order. -/
theorem get_all_data_oscillations_witness :
    get_all_data ⟨[exRa, exRb]⟩ .oscillations_params none =
      .ok (.arr2 ([exRa, exRb].flatMap (fun r => r.oscillations_params))) :=
  get_all_data_oscillations [exRa, exRb] (by simp)
    (by
      intro r hr row hrow
      simp only [List.mem_cons, List.not_mem_nil, or_false] at hr
      rcases hr with rfl | rfl
      · simp only [exRa, List.mem_cons, List.not_mem_nil, or_false] at hrow
        subst hrow; rfl
      · simp only [exRb, List.mem_cons, List.not_mem_nil, or_false] at hrow
        rcases hrow with rfl | rfl <;> rfl)

/-! ### Claim C9 -/

/-- Claim C9: when the stored group results are empty, `get_all_data` raises
IndexError for every field name and every optional column index (it indexes
the first element of an empty extraction), rather than returning an empty
sequence. -/
theorem get_all_data_empty_raises (name : FieldName) (ind : Option Nat) :
    get_all_data ⟨[]⟩ name ind = .error .IndexError := rfl

end Fooof
